import Mathlib

/-!
Verification of the pymono repository (src/apps/api/main.py): a single-file
FastAPI service exposing one route, `GET /`, that returns a fixed JSON body.
The Python source is shallowly embedded below: the module-level `app` object
with its metadata and route table is a Lean structure value, the handler
`read_root` is a Lean definition returning `Except` (a Python function body
may in principle raise; this one is a single `return` of a literal), and the
framework's request dispatch — which lives in the external FastAPI package,
not in this repository — is modelled from the spec's description of the
inherited defaults (200 on a match, 405 on a path match with the wrong
method, 404 otherwise).
-/

namespace PyMono

/-- HTTP methods relevant to routing. -/
inductive Method where
  | GET
  | POST
  | PUT
  | DELETE
  | PATCH
  | HEAD
  | OPTIONS
deriving DecidableEq, Repr

/-- A JSON object body whose fields are string-valued, the only shape this
program produces (the Python handler returns a one-entry dict of strings). -/
abbrev Body := List (String × String)

/-- A registered route: a (method, path) pair mapped to a handler. The
handler of `read_root` takes no parameters in the source, so it is embedded
as its (possibly failing) result value. -/
structure Route where
  method : Method
  path : String
  handler : Except String Body

/-- The FastAPI application object: constructor metadata plus the route
table accumulated by the decorators. -/
structure FastAPIApp where
  title : String
  description : String
  version : String
  routes : List Route

/-- `read_root` from src/apps/api/main.py lines 10-12: the body is the single
statement `return` of the literal dict mapping "message" to the welcome
string. Python functions may raise, so the embedding returns `Except`; this
body cannot, so it is always `Except.ok`. -/
def read_root : Except String Body :=
  Except.ok [("message", "Welcome to the FastAPI Example!")]

/-- `app` from src/apps/api/main.py lines 4-8, together with the one route
registered by the `app.get` decorator on line 10. -/
def app : FastAPIApp :=
  { title := "FastAPI Example",
    description := "A simple FastAPI application example",
    version := "1.0.0",
    routes := [{ method := Method.GET, path := "/", handler := read_root }] }

/-- An inbound HTTP request: method, path, query string and headers. The
query and headers are carried so that insensitivity to them can be stated;
the registered handler consults none of them. -/
structure Request where
  method : Method
  path : String
  query : List (String × String)
  headers : List (String × String)

/-- An HTTP response: a status code and an optional JSON body. -/
structure Response where
  status : Nat
  body : Option Body
deriving DecidableEq, Repr

/-- Modelled from the spec: FastAPI's dispatch of one request against the
route table, which is external-framework code. A route matching both path
and method runs its handler (200 on a normal return, 500 if it raised); a
path match with no method match yields the framework default 405; no path
match yields the framework default 404. -/
def handle (a : FastAPIApp) (req : Request) : Response :=
  match a.routes.find? (fun r => decide (r.path = req.path ∧ r.method = req.method)) with
  | some r =>
      match r.handler with
      | Except.ok b => { status := 200, body := some b }
      | Except.error _ => { status := 500, body := none }
  | none =>
      if a.routes.any (fun r => decide (r.path = req.path)) then
        { status := 405, body := none }
      else
        { status := 404, body := none }

/-- The observable state of the running service process: the application
object (whose route table is the only global state the source has) and a log
of side-effect records. The source never logs, so nothing ever appends to
the log. -/
structure ServiceState where
  app : FastAPIApp
  log : List String

/-- Handling one request, in state-passing form. The handler body is a
single `return` with no assignments, no logging calls and no I/O, so the
faithful stateful embedding returns the state unchanged alongside the
response. -/
def handleStep (s : ServiceState) (req : Request) : Response × ServiceState :=
  (handle s.app req, s)

/-- Issue the same request `n` times in sequence, threading the state,
collecting the responses in order. -/
def runN (s : ServiceState) (req : Request) : Nat → List Response × ServiceState
  | 0 => ([], s)
  | Nat.succ k =>
      let step := handleStep s req
      let rest := runN step.2 req k
      (step.1 :: rest.1, rest.2)

/-- The service state at startup: the module-level `app` and an empty log. -/
def initState : ServiceState :=
  { app := app, log := [] }

/-- How the module is executed: directly (so `__name__ == "__main__"`), or
imported by an external host process. -/
inductive ExecMode where
  | asMain
  | asImport
deriving DecidableEq

/-- A server launch request: the bind host and port passed to `uvicorn.run`,
and the application object served. -/
structure ServerLaunch where
  host : String
  port : Nat
  served : FastAPIApp

/-- The effect of executing the module, src/apps/api/main.py lines 15-17:
the route registration always takes effect, and `uvicorn.run(app,
host="0.0.0.0", port=8000)` is called exactly when the module runs as
`__main__`. No flag, environment variable or config file is consulted. -/
structure ModuleResult where
  registeredApp : FastAPIApp
  serverLaunch : Option ServerLaunch

/-- Executing src/apps/api/main.py in the given mode. -/
def runModule (mode : ExecMode) : ModuleResult :=
  { registeredApp := app,
    serverLaunch :=
      if mode = ExecMode.asMain then
        some { host := "0.0.0.0", port := 8000, served := app }
      else
        none }

/-- The response every `GET /` request receives. -/
def welcomeResponse : Response :=
  { status := 200, body := some [("message", "Welcome to the FastAPI Example!")] }

/-- Dispatching any request with method GET and path / produces the welcome
response, whatever the query string and headers. -/
theorem handle_get_root (req : Request) (hm : req.method = Method.GET)
    (hp : req.path = "/") : handle app req = welcomeResponse := by
  obtain ⟨m, p, q, hs⟩ := req
  simp only at hm hp
  subst hm
  subst hp
  rfl

/-- Dispatching any request whose path is not / produces the framework
default 404 response. -/
theorem handle_not_found (req : Request) (hp : req.path ≠ "/") :
    handle app req = { status := 404, body := none } := by
  obtain ⟨m, p, q, hs⟩ := req
  simp only at hp
  simp [handle, app, List.find?, List.any, Ne.symm hp]

/-- Dispatching any request to path / with a method other than GET produces
the framework default 405 response. -/
theorem handle_wrong_method (req : Request) (hp : req.path = "/")
    (hm : req.method ≠ Method.GET) :
    handle app req = { status := 405, body := none } := by
  obtain ⟨m, p, q, hs⟩ := req
  simp only at hp hm
  subst hp
  simp [handle, app, List.find?, List.any, Ne.symm hm]

/-- After any number of repetitions of one request, the responses are that
many copies of the single dispatch result and the state is unchanged. -/
theorem runN_spec (s : ServiceState) (req : Request) (n : Nat) :
    (runN s req n).1 = List.replicate n (handle s.app req) ∧
      (runN s req n).2 = s := by
  induction n with
  | zero => exact ⟨rfl, rfl⟩
  | succ k ih =>
      refine ⟨?_, ?_⟩ <;>
        simp [runN, handleStep, List.replicate, ih.1, ih.2]

/-- C1: every request to GET / is answered with HTTP status 200 and a JSON
body equal to exactly the one-entry dictionary mapping "message" to
"Welcome to the FastAPI Example!", i.e. the value `read_root` returns. -/
theorem get_root_ok (req : Request) (hm : req.method = Method.GET)
    (hp : req.path = "/") :
    handle app req =
      { status := 200,
        body := some [("message", "Welcome to the FastAPI Example!")] } :=
  handle_get_root req hm hp

/-- Witness for C1 at the concrete bare request GET /. -/
theorem get_root_ok_witness :
    handle app { method := Method.GET, path := "/", query := [], headers := [] } =
      { status := 200,
        body := some [("message", "Welcome to the FastAPI Example!")] } :=
  get_root_ok { method := Method.GET, path := "/", query := [], headers := [] } rfl rfl

/-- C2: the GET / handler is deterministic and insensitive to request data:
any two GET / requests, whatever their query strings and headers, receive
identical responses. -/
theorem get_root_uniform (r₁ r₂ : Request) (hm₁ : r₁.method = Method.GET)
    (hp₁ : r₁.path = "/") (hm₂ : r₂.method = Method.GET) (hp₂ : r₂.path = "/") :
    handle app r₁ = handle app r₂ :=
  (handle_get_root r₁ hm₁ hp₁).trans (handle_get_root r₂ hm₂ hp₂).symm

/-- Witness for C2: GET /?x=1 with an extra header receives the same
response as the bare GET /. -/
theorem get_root_uniform_witness :
    handle app
        { method := Method.GET, path := "/", query := [("x", "1")],
          headers := [("accept", "application/json")] } =
      handle app { method := Method.GET, path := "/", query := [], headers := [] } :=
  get_root_uniform
    { method := Method.GET, path := "/", query := [("x", "1")],
      headers := [("accept", "application/json")] }
    { method := Method.GET, path := "/", query := [], headers := [] }
    rfl rfl rfl rfl

/-- C3: issuing the same GET / request n times from the startup state yields
n identical responses (n copies of the welcome response) and leaves the
service state exactly as it was. -/
theorem get_root_idempotent (req : Request) (n : Nat)
    (hm : req.method = Method.GET) (hp : req.path = "/") :
    (runN initState req n).1 = List.replicate n welcomeResponse ∧
      (runN initState req n).2 = initState := by
  have h := runN_spec initState req n
  rwa [show handle initState.app req = welcomeResponse from
    handle_get_root req hm hp] at h

/-- Witness for C3: three repetitions of the bare GET /. -/
theorem get_root_idempotent_witness :
    (runN initState
        { method := Method.GET, path := "/", query := [], headers := [] } 3).1 =
        List.replicate 3 welcomeResponse ∧
      (runN initState
        { method := Method.GET, path := "/", query := [], headers := [] } 3).2 =
        initState :=
  get_root_idempotent
    { method := Method.GET, path := "/", query := [], headers := [] } 3 rfl rfl

/-- C4: handling a request has no side effects: the response is the only
output, the application object and the log are unchanged by a single step,
and the state is unchanged by any number of steps. -/
theorem handle_no_side_effects (s : ServiceState) (req : Request) :
    handleStep s req = (handle s.app req, s) ∧
      (handleStep s req).2.app = s.app ∧
      (handleStep s req).2.log = s.log ∧
      ∀ n : Nat, (runN s req n).2 = s :=
  ⟨rfl, rfl, rfl, fun n => (runN_spec s req n).2⟩

/-- C5: a request whose path is not / receives the framework default 404
response, a non-200 status, because the only registered route is on /. -/
theorem unmatched_path_404 (req : Request) (hp : req.path ≠ "/") :
    handle app req = { status := 404, body := none } :=
  handle_not_found req hp

/-- Witness for C5 at the concrete request GET /nonexistent. -/
theorem unmatched_path_404_witness :
    handle app
        { method := Method.GET, path := "/nonexistent", query := [], headers := [] } =
      { status := 404, body := none } :=
  unmatched_path_404
    { method := Method.GET, path := "/nonexistent", query := [], headers := [] }
    (by decide)

/-- C6: a request to path / whose method is not GET receives the framework
default 405 response, a non-200 status, because the route on / is
registered for GET only. -/
theorem wrong_method_405 (req : Request) (hp : req.path = "/")
    (hm : req.method ≠ Method.GET) :
    handle app req = { status := 405, body := none } :=
  handle_wrong_method req hp hm

/-- Witness for C6 at the concrete request POST /. -/
theorem wrong_method_405_witness :
    handle app { method := Method.POST, path := "/", query := [], headers := [] } =
      { status := 405, body := none } :=
  wrong_method_405
    { method := Method.POST, path := "/", query := [], headers := [] }
    rfl (by decide)

/-- C7: executed directly, the module starts the embedded server bound to
host 0.0.0.0 and port 8000 serving the registered app; imported, it starts
no server; in either mode the route registration takes effect unchanged. -/
theorem main_starts_server :
    (runModule ExecMode.asMain).serverLaunch =
        some { host := "0.0.0.0", port := 8000, served := app } ∧
      (runModule ExecMode.asImport).serverLaunch = none ∧
      ∀ mode : ExecMode, (runModule mode).registeredApp = app :=
  ⟨rfl, rfl, fun mode => by cases mode <;> rfl⟩

/-- C8: the application registers exactly one route — GET / mapped to
read_root — and the route table stays that singleton in both execution
modes and across any number of handled requests. -/
theorem single_route_registered :
    app.routes = [{ method := Method.GET, path := "/", handler := read_root }] ∧
      app.routes.length = 1 ∧
      (∀ mode : ExecMode,
        (runModule mode).registeredApp.routes =
          [{ method := Method.GET, path := "/", handler := read_root }]) ∧
      ∀ (req : Request) (n : Nat), (runN initState req n).2.app.routes = app.routes :=
  ⟨rfl, rfl, fun mode => by cases mode <;> rfl,
    fun req n => by rw [(runN_spec initState req n).2]; rfl⟩

/-- C9: the handler read_root is total and never raises: it returns
Except.ok of the fixed dictionary, and consequently dispatch never takes
the error branch — every response status is 200, 404 or 405. -/
theorem read_root_total :
    read_root = Except.ok [("message", "Welcome to the FastAPI Example!")] ∧
      ∀ req : Request,
        (handle app req).status = 200 ∨ (handle app req).status = 404 ∨
          (handle app req).status = 405 := by
  refine ⟨rfl, fun req => ?_⟩
  by_cases hp : req.path = "/"
  · by_cases hm : req.method = Method.GET
    · exact Or.inl (by rw [handle_get_root req hm hp]; rfl)
    · exact Or.inr (Or.inr (by rw [handle_wrong_method req hp hm]))
  · exact Or.inr (Or.inl (by rw [handle_not_found req hp]))

/-- C10: the FastAPI application is constructed with fixed metadata: title
"FastAPI Example", description "A simple FastAPI application example" and
version "1.0.0". -/
theorem app_metadata_fixed :
    app.title = "FastAPI Example" ∧
      app.description = "A simple FastAPI application example" ∧
      app.version = "1.0.0" :=
  ⟨rfl, rfl, rfl⟩

end PyMono
